import Mathlib

/-
  Verification of the flo event-log server (akubera/flo) against its
  natural-language specification.

  Shallow embedding conventions:
  * machine integers (u16, u32, u64) are modelled as Nat; none of the
    verified claims depends on wrap-around behaviour;
  * byte buffers are List Nat (each element a byte value 0..255);
  * fallible operations return Option / Except / explicit result types;
  * a Rust panic (unwrap / expect on a failed value) is modelled as the
    `none` outcome of an Option-valued function;
  * channels: an UnboundedSender is modelled by a Bool flag saying whether
    the receiving end is still connected; a successful send is recorded in
    an explicit list of delivered messages.
-/

namespace Flo

/-! ## Event identity (flo-event/src/lib.rs) -/

/-- FloEventId from flo-event/src/lib.rs: an actor id (u16) and a
per-actor event counter (u64). -/
structure FloEventId where
  actor : Nat
  event_counter : Nat
  deriving Repr, DecidableEq

/-- FloEventId::new. -/
def FloEventId.new (actor : Nat) (event_counter : Nat) : FloEventId :=
  { actor := actor, event_counter := event_counter }

/-- FloEventId::zero, the (0,0) sentinel. -/
def FloEventId.zero : FloEventId := FloEventId.new 0 0

/-- Strict order on event ids, from the Ord impl in flo-event/src/lib.rs:
compare event_counter first, break ties on actor. -/
def idLt (a b : FloEventId) : Bool :=
  if a.event_counter = b.event_counter then a.actor < b.actor
  else a.event_counter < b.event_counter

/-- Non-strict companion of idLt (used to state spec claims phrased
with ≤). -/
def idLe (a b : FloEventId) : Bool :=
  idLt a b || (a = b)

/-- OwnedFloEvent from flo-event/src/lib.rs.  The namespace is kept as its
byte sequence (the Rust String is UTF-8 validated on construction by the
disk reader, see utf8Valid below). -/
structure OwnedFloEvent where
  id : FloEventId
  namespace_bytes : List Nat
  data : List Nat
  deriving Repr, DecidableEq

/-! ## Engine api messages

The module server/engine/api is not present under src/; the message
shapes below are reconstructed from their uses in
server/engine/producer/mod.rs, server/engine/consumer/mod.rs and
server/engine/client.rs. -/

/-- Modelled from the spec: ProduceEvent of the absent server/engine/api
module, as used by ProducerManager::produce_event and by the unit tests in
server/flo_io/client_message_stream.rs (fields connection_id, op_id,
event_data). -/
structure ProduceEvent where
  connection_id : Nat
  op_id : Nat
  event_data : List Nat
  deriving Repr, DecidableEq

/-- Modelled from the spec: EventAck of the absent server/engine/api
module (fields op_id and event_id), as constructed in
ProducerManager::produce_event. -/
structure EventAck where
  op_id : Nat
  event_id : FloEventId
  deriving Repr, DecidableEq

/-- Modelled from the spec: ServerMessage of the absent
server/engine/api module.  The two variants used under src/ are
ServerMessage::EventPersisted(EventAck) (producer ack path) and
ServerMessage::Event(Arc of OwnedFloEvent) (consumer delivery path). -/
inductive ServerMessage where
  | eventPersisted (ack : EventAck)
  | event (e : OwnedFloEvent)
  deriving Repr, DecidableEq

/-- Modelled from the spec: ConsumerMessage of the absent
server/engine/api module, with the variants matched in
ConsumerManager::process. -/
inductive ConsumerMessage where
  | clientConnect (connection_id : Nat)
  | startConsuming (connection_id : Nat) (limit : Nat)
  | continueConsuming (connection_id : Nat) (last_id : FloEventId) (limit : Nat)
  | eventLoaded (connection_id : Nat) (e : OwnedFloEvent)
  | eventPersisted (connection_id : Nat) (e : OwnedFloEvent)
  deriving Repr, DecidableEq

/-! ## Producer manager (server/engine/producer/mod.rs) -/

/-- One registered connection in the ProducerMap: its id and whether the
outbound channel still has a live receiver.  Mirrors the ClientConnect
value stored by ProducerMap::add; the futures UnboundedSender is
abstracted to the chanOpen flag. -/
structure PClient where
  connection_id : Nat
  chanOpen : Bool
  deriving Repr, DecidableEq

/-- ProducerManager state (server/engine/producer/mod.rs lines 43-49):
actor_id, highest_event_id and the client map.  The storage engine and
the consumer manager channel are modelled through the outcome record of
produceEvent. -/
structure ProducerState where
  actor_id : Nat
  highest_event_id : Nat
  clients : List PClient
  deriving Repr, DecidableEq

/-- ProducerMap::send delivers a message iff the target connection is
registered and its channel is still open (the Err results are built and
then discarded by produce_event, which ignores the send result). -/
def producerMapDelivers (clients : List PClient) (connection_id : Nat) : Bool :=
  clients.any (fun c => c.connection_id == connection_id && c.chanOpen)

/-- Everything observable about one call to
ProducerManager::produce_event: the state afterwards, the event handed to
event_store.store, the messages delivered to client channels, the
messages sent on consumer_manager_channel, and the returned Result
(modelled as Bool: true = Ok). -/
structure ProduceOutcome where
  state : ProducerState
  storedAttempt : OwnedFloEvent
  clientSends : List (Nat × ServerMessage)
  consumerMsgs : List ConsumerMessage
  retOk : Bool
  deriving Repr, DecidableEq

/-- Byte sequence of the hard-coded namespace string "whatever" used by
produce_event when building the OwnedFloEvent. -/
def whateverBytes : List Nat := [119, 104, 97, 116, 101, 118, 101, 114]

/-- ProducerManager::produce_event (server/engine/producer/mod.rs lines
75-96).  storeOk says whether event_store.store succeeds (the I/O
environment).  The event id is built from the current highest_event_id;
on success highest_event_id is incremented and the ack (wrapped in
ServerMessage::EventPersisted) is sent to the producing connection; the
send result is discarded; nothing is ever placed on
consumer_manager_channel; the function returns Ok in both cases. -/
def produceEvent (storeOk : Bool) (st : ProducerState) (ev : ProduceEvent) :
    ProduceOutcome :=
  let event_id := FloEventId.new st.actor_id st.highest_event_id
  let owned_event : OwnedFloEvent :=
    { id := event_id, namespace_bytes := whateverBytes, data := ev.event_data }
  if storeOk then
    { state := { st with highest_event_id := st.highest_event_id + 1 }
      storedAttempt := owned_event
      clientSends :=
        if producerMapDelivers st.clients ev.connection_id then
          [(ev.connection_id, ServerMessage.eventPersisted
            { op_id := ev.op_id, event_id := event_id })]
        else []
      consumerMsgs := []
      retOk := true }
  else
    { state := st
      storedAttempt := owned_event
      clientSends := []
      consumerMsgs := []
      retOk := true }

/-! ## Consumer manager (server/engine/consumer/mod.rs)

The submodules server/engine/consumer/client.rs and
server/engine/consumer/cache.rs are not present under src/; the Client
and Cache types below are modelled from the spec, keeping exactly the
operations that server/engine/consumer/mod.rs calls on them. -/

/-- Modelled from the spec: the per-connection subscription state of §3
(server/engine/consumer/client.rs is absent).  ConsumingState values are
built in mod.rs through forward_from_file and forward_from_memory. -/
inductive ConsumingState where
  | notConsuming (pos : FloEventId)
  | fromMemory (pos : FloEventId) (remaining : Nat)
  | fromFile (pos : FloEventId) (remaining : Nat)
  deriving Repr, DecidableEq

/-- Modelled from the spec: the consumer-side Client of the absent
server/engine/consumer/client.rs, with the operations used by mod.rs
(get_current_position, start_consuming, send, is_awaiting_new_event).
The outbound UnboundedSender is abstracted to the chanOpen flag. -/
structure CClient where
  connection_id : Nat
  chanOpen : Bool
  state : ConsumingState
  deriving Repr, DecidableEq

/-- Client::get_current_position: the position stored in the current
consuming state (the high-watermark already delivered, §3). -/
def CClient.getCurrentPosition (c : CClient) : FloEventId :=
  match c.state with
  | .notConsuming p => p
  | .fromMemory p _ => p
  | .fromFile p _ => p

/-- Client::is_awaiting_new_event: true exactly for idle (NotConsuming)
clients, which are the ones the EventPersisted broadcast targets (§4.G). -/
def CClient.isAwaitingNewEvent (c : CClient) : Bool :=
  match c.state with
  | .notConsuming _ => true
  | _ => false

/-- Modelled from the spec: the hot cache of §4.E
(server/engine/consumer/cache.rs is absent): resident entries in id
order plus the id of the most recently evicted event. -/
structure Cache where
  entries : List (FloEventId × OwnedFloEvent)
  lastEvicted : FloEventId
  deriving Repr, DecidableEq

/-- Cache::do_with_range(start, limit, f), modelled from the spec: f is
called for up to limit resident events whose id is strictly greater than
start; we return the visited entries. -/
def Cache.doWithRange (c : Cache) (start : FloEventId) (limit : Nat) :
    List (FloEventId × OwnedFloEvent) :=
  (c.entries.filter (fun p => idLt start p.1)).take limit

/-- Lookup in the ConsumerMap (HashMap keyed by connection id, modelled
as a list with distinct connection ids). -/
def findClient (cs : List CClient) (cid : Nat) : Option CClient :=
  cs.find? (fun c => c.connection_id == cid)

/-- Replacing one client's entry in the ConsumerMap. -/
def updateClient (cs : List CClient) (cid : Nat) (f : CClient → CClient) :
    List CClient :=
  cs.map (fun c => if c.connection_id == cid then f c else c)

/-- Which delivery path start_consuming took: a background disk reader
was spawned, or events were sent synchronously from the cache. -/
inductive StartAction where
  | spawnedDiskReader (start : FloEventId) (limit : Nat)
  | sentFromCache (sent : List (Nat × OwnedFloEvent))
  deriving Repr, DecidableEq

/-- Observable outcome of ConsumerManager::start_consuming. -/
inductive StartResult where
  | ok (consumers : List CClient) (act : StartAction)
  | errNoClient
  | panicked
  deriving Repr, DecidableEq

/-- ConsumerManager::start_consuming (server/engine/consumer/mod.rs lines
78-126).  The branch on `start_id < cache.last_evicted_id()` decides
between spawning the disk-reader thread (state forward_from_file) and
draining the cache through do_with_range (state forward_from_memory).
Each cache send unwraps its result, so a closed channel with at least one
event to send is a panic. -/
def startConsuming (consumers : List CClient) (cache : Cache) (cid : Nat)
    (limit : Nat) : StartResult :=
  match findClient consumers cid with
  | none => .errNoClient
  | some client =>
    let start_id := client.getCurrentPosition
    if idLt start_id cache.lastEvicted then
      .ok (updateClient consumers cid
            (fun c => { c with state := .fromFile start_id limit }))
          (.spawnedDiskReader start_id limit)
    else
      let ranged := cache.doWithRange start_id limit
      if ranged.isEmpty || client.chanOpen then
        .ok (updateClient consumers cid
              (fun c => { c with state := .fromMemory start_id limit }))
            (.sentFromCache (ranged.map (fun p => (cid, p.2))))
      else .panicked

/-- Boolean test of whether start_consuming spawned a disk reader. -/
def StartResult.isDiskSpawn : StartResult → Bool
  | .ok _ (.spawnedDiskReader _ _) => true
  | _ => false

/-- ConsumerMap::send_event_to_all (server/engine/consumer/mod.rs lines
169-177): every client in awaiting-new-event state gets the event, with
the send result unwrapped — a disconnected channel is a panic, modelled
as none.  On success the delivered (connection_id, event) pairs are
returned; the map itself is never modified. -/
def sendEventToAll : List CClient → OwnedFloEvent →
    Option (List (Nat × OwnedFloEvent))
  | [], _ => some []
  | c :: rest, e =>
    if c.isAwaitingNewEvent then
      if c.chanOpen then
        (sendEventToAll rest e).map (fun l => (c.connection_id, e) :: l)
      else none
    else sendEventToAll rest e

/-! ## On-disk event reader (event_store/fs/reader.rs) -/

/-- Big-endian value of a byte sequence (byteorder::BigEndian::read_uNN). -/
def beVal (bytes : List Nat) : Nat :=
  bytes.foldl (fun a b => a * 256 + b) 0

/-- Byte slice helper: `len` bytes starting at `start`. -/
def slice (l : List Nat) (start len : Nat) : List Nat :=
  (l.drop start).take len

/-- Bytes of the record magic "FLO_EVT\n" (event_store/fs/mod.rs
FLO_EVT, referenced from reader.rs as super::FLO_EVT). -/
def floEvtTag : List Nat := [70, 76, 79, 95, 69, 86, 84, 10]

/-- Continuation-byte test of UTF-8 validation (0x80..0xBF). -/
def utf8Cont (b : Nat) : Bool := 128 ≤ b && b ≤ 191

/-- UTF-8 validity of a byte sequence, as enforced by
String::from_utf8 in read_event (rejecting overlong forms, surrogates
and values above U+10FFFF). -/
def utf8Valid : List Nat → Bool
  | [] => true
  | b :: rest =>
    if b ≤ 127 then utf8Valid rest
    else if 194 ≤ b && b ≤ 223 then
      match rest with
      | c1 :: r => utf8Cont c1 && utf8Valid r
      | [] => false
    else if b = 224 then
      match rest with
      | c1 :: c2 :: r => (160 ≤ c1 && c1 ≤ 191) && utf8Cont c2 && utf8Valid r
      | _ => false
    else if 225 ≤ b && b ≤ 236 then
      match rest with
      | c1 :: c2 :: r => utf8Cont c1 && utf8Cont c2 && utf8Valid r
      | _ => false
    else if b = 237 then
      match rest with
      | c1 :: c2 :: r => (128 ≤ c1 && c1 ≤ 159) && utf8Cont c2 && utf8Valid r
      | _ => false
    else if 238 ≤ b && b ≤ 239 then
      match rest with
      | c1 :: c2 :: r => utf8Cont c1 && utf8Cont c2 && utf8Valid r
      | _ => false
    else if b = 240 then
      match rest with
      | c1 :: c2 :: c3 :: r =>
        (144 ≤ c1 && c1 ≤ 191) && utf8Cont c2 && utf8Cont c3 && utf8Valid r
      | _ => false
    else if 241 ≤ b && b ≤ 243 then
      match rest with
      | c1 :: c2 :: c3 :: r =>
        utf8Cont c1 && utf8Cont c2 && utf8Cont c3 && utf8Valid r
      | _ => false
    else if b = 244 then
      match rest with
      | c1 :: c2 :: c3 :: r =>
        (128 ≤ c1 && c1 ≤ 143) && utf8Cont c2 && utf8Cont c3 && utf8Valid r
      | _ => false
    else false

/-- Modelled from the spec: the file environment behind the BufReader.
data are the file's bytes; failAt is the fault model — every read that
starts at a position at or past failAt fails with an I/O error (none
means reads never fail).  The file is fixed for the iterator's lifetime
(readers open an independent read-only descriptor, §5). -/
structure RFile where
  data : List Nat
  failAt : Option Nat
  deriving Repr, DecidableEq

/-- Whether a read starting at pos hits the fault. -/
def RFile.failHit (f : RFile) (pos : Nat) : Bool :=
  match f.failAt with
  | some k => decide (k ≤ pos)
  | none => false

/-- Result of a read: the value plus the reader position afterwards, or
an error with the position the reader stopped at. -/
inductive RdRes (α : Type) where
  | ok (v : α) (pos : Nat)
  | err (pos : Nat)
  deriving Repr, DecidableEq

/-- Read::read_exact over the modelled file: n bytes from pos, failing
on the fault or when fewer than n bytes remain (in which case the reader
has consumed what was available). -/
def readExact (f : RFile) (pos n : Nat) : RdRes (List Nat) :=
  if f.failHit pos then .err pos
  else if pos + n ≤ f.data.length then .ok (slice f.data pos n) (pos + n)
  else .err f.data.length

/-- EventHeader from event_store/fs/reader.rs lines 85-90.  All fields
are the decoded big-endian integers. -/
structure EventHeader where
  total_size : Nat
  event_counter : Nat
  actor_id : Nat
  namespace_length : Nat
  deriving Repr, DecidableEq

/-- EventHeader::size_on_disk. -/
def EventHeader.sizeOnDisk : Nat := 26

/-- EventHeader::compute_data_length (reader.rs lines 97-99):
total_size - 4 - 10 - 4 - namespace_length - 4.  In the source these are
u32 subtractions; for every record the reader accepts they do not
underflow, where Nat truncated subtraction agrees with u32. -/
def EventHeader.computeDataLength (h : EventHeader) : Nat :=
  h.total_size - 4 - 10 - 4 - h.namespace_length - 4

/-- EventHeader::event_id. -/
def EventHeader.eventId (h : EventHeader) : FloEventId :=
  FloEventId.new h.actor_id h.event_counter

/-- read_header (reader.rs lines 106-120): 26 bytes, of which the first
8 must equal the magic; then total_size:u32, counter:u64, actor:u16,
ns_len:u32, all big-endian. -/
def readHeaderFS (f : RFile) (pos : Nat) : RdRes EventHeader :=
  match readExact f pos 26 with
  | .err p => .err p
  | .ok buffer p =>
    if buffer.take 8 = floEvtTag then
      .ok { total_size := beVal (slice buffer 8 4)
            event_counter := beVal (slice buffer 12 8)
            actor_id := beVal (slice buffer 20 2)
            namespace_length := beVal (slice buffer 22 4) } p
    else .err p

/-- read_event (reader.rs lines 122-141): header, namespace bytes
(UTF-8 validated), data length field, data bytes.  The
debug_assert_eq between the data length field and
compute_data_length is modelled as a guard. -/
def readEventFS (f : RFile) (pos : Nat) : RdRes OwnedFloEvent :=
  match readHeaderFS f pos with
  | .err p => .err p
  | .ok header p =>
    match readExact f p header.namespace_length with
    | .err p2 => .err p2
    | .ok nsBytes p2 =>
      if utf8Valid nsBytes then
        match readExact f p2 4 with
        | .err p3 => .err p3
        | .ok dlb p3 =>
          if beVal dlb = header.computeDataLength then
            match readExact f p3 (beVal dlb) with
            | .err p4 => .err p4
            | .ok dataB p4 => .ok ⟨header.eventId, nsBytes, dataB⟩ p4
          else .err p3
      else .err p2

/-- has_next_event (reader.rs lines 79-83): fill the buffer at the
current position and test that at least 8 bytes remain and equal the
magic; a failed fill is an I/O error. -/
def hasNextEvent (f : RFile) (pos : Nat) : RdRes Bool :=
  if f.failHit pos then .err pos
  else .ok (decide (8 ≤ f.data.length - pos) && (slice f.data pos 8 == floEvtTag)) pos

/-- EventIterInner (reader.rs lines 12-19): Empty, NonEmpty (reader
position and remaining budget) or Error (the pending flag models the
Option around the stored io::Error, taken on first use). -/
inductive EventIterInner where
  | empty
  | nonEmpty (pos : Nat) (remaining : Nat)
  | errorPending (pending : Bool)
  deriving Repr, DecidableEq

/-- FSEventIter::next (reader.rs lines 46-77).  The yielded item is
some (Except Unit OwnedFloEvent) — ok an event, error an I/O failure —
or none when the iterator is exhausted.  In the NonEmpty state the
remaining budget is decremented before the read is attempted, and
neither an EOF probe nor an error moves the iterator to a terminal
state. -/
def FSEventIterNext (f : RFile) :
    EventIterInner → Option (Except Unit OwnedFloEvent) × EventIterInner
  | .empty => (none, .empty)
  | .errorPending pending =>
    if pending then (some (.error ()), .errorPending false)
    else (none, .errorPending false)
  | .nonEmpty pos remaining =>
    if remaining = 0 then (none, .nonEmpty pos remaining)
    else
      match hasNextEvent f pos with
      | .err _ => (some (.error ()), .nonEmpty pos (remaining - 1))
      | .ok false _ => (none, .nonEmpty pos (remaining - 1))
      | .ok true _ =>
        match readEventFS f pos with
        | .ok e p => (some (.ok e), .nonEmpty p (remaining - 1))
        | .err p => (some (.error ()), .nonEmpty p (remaining - 1))

/-- Drive the iterator n times, collecting every yielded item (also
past a first None, to observe what the claim calls "nothing further"). -/
def runIter (f : RFile) : Nat → EventIterInner →
    List (Except Unit OwnedFloEvent) × EventIterInner
  | 0, st => ([], st)
  | n + 1, st =>
    ((FSEventIterNext f st).1.toList ++ (runIter f n (FSEventIterNext f st).2).1,
     (runIter f n (FSEventIterNext f st).2).2)

/-- Upper bound on how many more items an iterator state can yield. -/
def iterBudget : EventIterInner → Nat
  | .empty => 0
  | .errorPending pending => if pending then 1 else 0
  | .nonEmpty _ remaining => remaining

/-! ## Engine client map (server/engine/client.rs) -/

/-- ConsumerState from server/engine/client.rs lines 33-36. -/
inductive EConsumerState where
  | notConsuming (id : FloEventId)
  | consumeForward (id : FloEventId)
  deriving Repr, DecidableEq

/-- Client from server/engine/client.rs lines 38-43.  The SocketAddr is
abstracted to a Nat; the UnboundedSender is abstracted to its identity
plus a liveness flag (Client::send fails iff senderOpen is false). -/
structure EClient where
  connection_id : Nat
  addr : Nat
  senderId : Nat
  senderOpen : Bool
  consumer_state : EConsumerState
  deriving Repr, DecidableEq

/-- Client::update_marker (server/engine/client.rs lines 70-77): rebuild
the consumer state with the same constructor and the new marker. -/
def EClient.updateMarker (c : EClient) (new_marker : FloEventId) : EClient :=
  { c with consumer_state :=
      match c.consumer_state with
      | .notConsuming _ => .notConsuming new_marker
      | .consumeForward _ => .consumeForward new_marker }

/-- Connection ids whose send failed inside the loop of
ClientManagerImpl::send_event: every non-producer client whose channel is
closed (clients_to_remove in the source). -/
def cmiFailures : List EClient → Nat → List Nat
  | [], _ => []
  | c :: rest, p =>
    if c.connection_id != p && !c.senderOpen then
      c.connection_id :: cmiFailures rest p
    else cmiFailures rest p

/-- Connection ids successfully sent to by ClientManagerImpl::send_event:
every non-producer client whose channel is open. -/
def cmiDeliveries : List EClient → Nat → List Nat
  | [], _ => []
  | c :: rest, p =>
    if c.connection_id != p && c.senderOpen then
      c.connection_id :: cmiDeliveries rest p
    else cmiDeliveries rest p

/-- ClientManagerImpl::send_event (server/engine/client.rs lines
112-135): send the event to every client except the producer, collect the
connections whose send failed, then remove exactly those from the map.
The function is total — no branch panics. -/
def clientManagerSendEvent (clients : List EClient) (event_producer : Nat) :
    List EClient × List Nat :=
  let toRemove := cmiFailures clients event_producer
  (clients.filter (fun c => !(toRemove.contains c.connection_id)),
   cmiDeliveries clients event_producer)

/-- C1 counterexample: at the concrete producer state with
highest_event_id = 5 (one connected client 7, storage succeeding), the
event stored and acked for a Produce message carries counter 5 — not
highest_counter + 1 = 6 as the claim states — and after persisting,
highest_event_id is 6, which differs from the assigned counter. -/
theorem C1_counterexample :
    (produceEvent true ⟨1, 5, [⟨7, true⟩]⟩ ⟨7, 9, [1, 2, 3]⟩).storedAttempt.id.event_counter = 5 ∧
    ¬ (produceEvent true ⟨1, 5, [⟨7, true⟩]⟩ ⟨7, 9, [1, 2, 3]⟩).storedAttempt.id.event_counter = 5 + 1 ∧
    (produceEvent true ⟨1, 5, [⟨7, true⟩]⟩ ⟨7, 9, [1, 2, 3]⟩).state.highest_event_id = 6 ∧
    ¬ (produceEvent true ⟨1, 5, [⟨7, true⟩]⟩ ⟨7, 9, [1, 2, 3]⟩).state.highest_event_id
      = (produceEvent true ⟨1, 5, [⟨7, true⟩]⟩ ⟨7, 9, [1, 2, 3]⟩).storedAttempt.id.event_counter := by
  decide

/-- C1 (amended): for every Produce handled with a successful store, the
assigned event id is (actor_id, highest_counter) — the manager's
highest_event_id value before handling the message, not highest + 1 —
the ack delivered to the producing connection (when its channel is open)
carries exactly that id, and afterwards highest_event_id equals the
assigned counter plus one. -/
theorem C1_produce_assigns_current_highest (st : ProducerState) (ev : ProduceEvent) :
    (produceEvent true st ev).storedAttempt.id
      = FloEventId.new st.actor_id st.highest_event_id ∧
    (produceEvent true st ev).state.highest_event_id = st.highest_event_id + 1 ∧
    (produceEvent true st ev).clientSends =
      (if producerMapDelivers st.clients ev.connection_id then
        [(ev.connection_id, ServerMessage.eventPersisted
          { op_id := ev.op_id
            event_id := FloEventId.new st.actor_id st.highest_event_id })]
      else []) := by
  cases h : producerMapDelivers st.clients ev.connection_id <;>
    simp [produceEvent, FloEventId.new, h]

/-- C2: evaluating ProducerManager::produce_event at a successfully
persisted Produce (state with highest_event_id 3, client 4 connected)
shows the ack is delivered to the producing connection but the list of
messages sent on consumer_manager_channel is empty: the code never
forwards an EventPersisted to the consumer manager, so no fan-out
happens. -/
theorem C2_no_forward_to_consumer_manager :
    (produceEvent true ⟨1, 3, [⟨4, true⟩]⟩ ⟨4, 11, [42]⟩).clientSends =
      [(4, ServerMessage.eventPersisted ⟨11, ⟨1, 3⟩⟩)] ∧
    (produceEvent true ⟨1, 3, [⟨4, true⟩]⟩ ⟨4, 11, [42]⟩).consumerMsgs = [] := by
  decide

/-- C3 counterexample: at the concrete state ⟨1, 5, [⟨7, true⟩]⟩ with the
storage append failing, produce_event sends no message at all to the
originating client — in particular no FLO_ERR with kind
PersistenceFailure — while the claim requires one to be sent. -/
theorem C3_counterexample :
    (produceEvent false ⟨1, 5, [⟨7, true⟩]⟩ ⟨7, 9, [1, 2, 3]⟩).clientSends = [] := by
  decide

/-- C3 (amended): when the storage append fails while handling a Produce,
the producer manager sends nothing to the originating client (no FLO_ERR
frame), leaves its state — including highest_event_id and the client
map — unchanged, forwards nothing to the consumer manager, and returns
Ok, so the connection remains open. -/
theorem C3_storage_error_is_silent (st : ProducerState) (ev : ProduceEvent) :
    (produceEvent false st ev).clientSends = [] ∧
    (produceEvent false st ev).state = st ∧
    (produceEvent false st ev).consumerMsgs = [] ∧
    (produceEvent false st ev).retOk = true := by
  simp [produceEvent]

/-- C4 counterexample: with a client at position (1,5) and the cache's
last_evicted_id also (1,5), the claim says the position is ≤
last_evicted_id so a disk reader must be spawned; the code compares with
strict < and takes the cache path instead. -/
theorem C4_counterexample :
    idLe ⟨1, 5⟩ ⟨1, 5⟩ = true ∧
    (startConsuming [⟨3, true, .notConsuming ⟨1, 5⟩⟩]
        ⟨[(⟨1, 6⟩, ⟨⟨1, 6⟩, [], [7]⟩)], ⟨1, 5⟩⟩ 3 2).isDiskSpawn = false := by
  decide

/-- C4 (amended): for a registered consumer, start_consuming spawns a
background disk reader (setting state ConsumingFromDisk) if and only if
the client's current position is strictly less than
cache.last_evicted_id(); otherwise (position ≥ last_evicted_id, channel
open) the events are delivered from the cache via do_with_range and the
state is set to ConsumingFromCache. -/
theorem C4_disk_iff_strictly_behind (consumers : List CClient) (cache : Cache)
    (cid limit : Nat) (client : CClient)
    (h : findClient consumers cid = some client) :
    (startConsuming consumers cache cid limit).isDiskSpawn
      = idLt client.getCurrentPosition cache.lastEvicted ∧
    (idLt client.getCurrentPosition cache.lastEvicted = true →
      startConsuming consumers cache cid limit =
        .ok (updateClient consumers cid
              (fun c => { c with state := .fromFile client.getCurrentPosition limit }))
            (.spawnedDiskReader client.getCurrentPosition limit)) ∧
    (idLt client.getCurrentPosition cache.lastEvicted = false →
      client.chanOpen = true →
      startConsuming consumers cache cid limit =
        .ok (updateClient consumers cid
              (fun c => { c with state := .fromMemory client.getCurrentPosition limit }))
            (.sentFromCache ((cache.doWithRange client.getCurrentPosition limit).map
              (fun p => (cid, p.2))))) := by
  simp only [startConsuming, h]
  cases hlt : idLt client.getCurrentPosition cache.lastEvicted with
  | true => simp [StartResult.isDiskSpawn]
  | false =>
    refine ⟨?_, by simp, ?_⟩
    · by_cases hr : ((cache.doWithRange client.getCurrentPosition limit).isEmpty
          || client.chanOpen) = true <;>
        simp [hr, StartResult.isDiskSpawn]
    · intro _ hopen
      simp [hopen]

/-- C4 witness: applying C4_disk_iff_strictly_behind at a concrete
consumer map with a single client at position (1,7) and last_evicted_id
(1,9). -/
theorem C4_witness :
    (startConsuming [⟨3, true, .notConsuming ⟨1, 7⟩⟩] ⟨[], ⟨1, 9⟩⟩ 3 2).isDiskSpawn
      = idLt (CClient.getCurrentPosition ⟨3, true, .notConsuming ⟨1, 7⟩⟩) ⟨1, 9⟩ :=
  (C4_disk_iff_strictly_behind [⟨3, true, .notConsuming ⟨1, 7⟩⟩] ⟨[], ⟨1, 9⟩⟩ 3 2
    ⟨3, true, .notConsuming ⟨1, 7⟩⟩ (by decide)).1

/-- C5: at the failing input — a consumer map holding one
awaiting-new-event client whose channel is disconnected —
ConsumerMap::send_event_to_all unwraps the failed send and panics
(modelled as none) instead of removing the client; by contrast
ClientManagerImpl::send_event at a map with a disconnected non-producer
client removes exactly that client, delivers to the remaining one, and
never panics (it is a total function). -/
theorem C5_broadcast_panics_on_closed_channel :
    sendEventToAll [⟨9, false, .notConsuming ⟨0, 0⟩⟩] ⟨⟨1, 1⟩, [], [5]⟩ = none ∧
    clientManagerSendEvent
        [⟨1, 0, 0, true, .notConsuming ⟨0, 0⟩⟩,
         ⟨2, 0, 1, false, .notConsuming ⟨0, 0⟩⟩,
         ⟨3, 0, 2, true, .notConsuming ⟨0, 0⟩⟩] 1
      = ([⟨1, 0, 0, true, .notConsuming ⟨0, 0⟩⟩,
          ⟨3, 0, 2, true, .notConsuming ⟨0, 0⟩⟩], [3]) := by
  decide

/-- C10: Client::update_marker changes only the event id stored inside
the consumer state — a NotConsuming client stays NotConsuming and a
ConsumeForward client stays ConsumeForward, with the stored id replaced
by the new marker — while connection_id, address and the outbound sender
are unchanged. -/
theorem C10_update_marker_only_replaces_id (c : EClient) (m : FloEventId) :
    (c.updateMarker m).connection_id = c.connection_id ∧
    (c.updateMarker m).addr = c.addr ∧
    (c.updateMarker m).senderId = c.senderId ∧
    (c.updateMarker m).senderOpen = c.senderOpen ∧
    (c.updateMarker m).consumer_state =
      (match c.consumer_state with
       | .notConsuming _ => EConsumerState.notConsuming m
       | .consumeForward _ => EConsumerState.consumeForward m) := by
  cases h : c.consumer_state <;> simp [EClient.updateMarker, h]

/-! ## Wire protocol and the incremental client message stream
(server/flo_io/client_message_stream.rs)

The parser module protocol/client.rs (ClientProtocolImpl::parse_any,
built with nom) is not present under src/; it is modelled below from the
spec.  ClientMessageStream itself — buffers, states and poll — is
embedded from the source. -/

/-- protocol::EventHeader as used by ClientMessageStream: the header-only
first phase of a FLO_PRO frame (op_id and data_length). -/
structure PEventHeader where
  op_id : Nat
  data_length : Nat
  deriving Repr, DecidableEq

/-- Modelled from the spec: api::ClientMessage of the absent
server/engine/api module, restricted to the client-to-server messages of
§4.B that the stream can emit: Produce, ClientAuth and the FLO_CNS
consume-start. -/
inductive MClientMessage where
  | produce (ev : ProduceEvent)
  | clientAuth (namespace_bytes username password : List Nat)
  | startConsuming (max_events : Nat)
  deriving Repr, DecidableEq

/-- ProtocolMessage (protocol module): either a complete api message or
the header-only first phase of a produce frame. -/
inductive ProtocolMessage where
  | apiMessage (m : MClientMessage)
  | produceEvent (h : PEventHeader)
  deriving Repr, DecidableEq

/-- Result of parse_any on a byte buffer: a message together with how
many bytes it consumed, an incomplete-input report, or a parse error. -/
inductive PRes where
  | done (consumed : Nat) (msg : ProtocolMessage)
  | incomplete
  | perror
  deriving Repr, DecidableEq

/-- Bytes of "FLO_AUT\n" (the auth tag exercised by the unit test
multiple_events_are_read_in_sequence). -/
def floAutTag : List Nat := [70, 76, 79, 95, 65, 85, 84, 10]

/-- Bytes of "FLO_PRO\n". -/
def floProTag : List Nat := [70, 76, 79, 95, 80, 82, 79, 10]

/-- Bytes of "FLO_CNS\n". -/
def floCnsTag : List Nat := [70, 76, 79, 95, 67, 78, 83, 10]

/-- Newline-terminated string field: the content before the first
newline and the byte count consumed including the newline; none when no
newline is present yet. -/
def takeLine : List Nat → Option (List Nat × Nat)
  | [] => none
  | b :: rest =>
    if b = 10 then some ([], 1)
    else (takeLine rest).map (fun p => (b :: p.1, p.2 + 1))

/-- Modelled from the spec: ClientProtocolImpl::parse_any of the absent
protocol/client.rs, following the §4.B frame grammar; its behaviour on
FLO_PRO (op_id:u32, data_len:u32 after the tag, header-only result) and
FLO_AUT (three newline-terminated strings) is pinned by the unit test
multiple_events_are_read_in_sequence in client_message_stream.rs.  Fewer
than 8 bytes, or a known tag with a truncated body, is Incomplete; an
unknown 8-byte tag is a parse error. -/
def parseAny (b : List Nat) : PRes :=
  if b.length < 8 then .incomplete
  else if b.take 8 = floProTag then
    if b.length < 16 then .incomplete
    else .done 16 (.produceEvent ⟨beVal (slice b 8 4), beVal (slice b 12 4)⟩)
  else if b.take 8 = floAutTag then
    match takeLine (b.drop 8) with
    | none => .incomplete
    | some (ns, n1) =>
      match takeLine (b.drop (8 + n1)) with
      | none => .incomplete
      | some (user, n2) =>
        match takeLine (b.drop (8 + n1 + n2)) with
        | none => .incomplete
        | some (pass, n3) =>
          .done (8 + n1 + n2 + n3) (.apiMessage (.clientAuth ns user pass))
  else if b.take 8 = floCnsTag then
    if b.length < 16 then .incomplete
    else .done 16 (.apiMessage (.startConsuming (beVal (slice b 8 8))))
  else .perror

/-- InProgressEvent (client_message_stream.rs lines 12-22): the produce
message under two-phase body read; collected are the body bytes received
so far, target the announced data_length. -/
structure InProgressEventM where
  connection_id : Nat
  op_id : Nat
  collected : List Nat
  target : Nat
  deriving Repr, DecidableEq

/-- MessageStreamState (client_message_stream.rs lines 24-29). -/
inductive MStreamState where
  | reading
  | parsing
  | readEvent (e : InProgressEventM)
  deriving Repr, DecidableEq

/-- MessageStreamState::is_read_event. -/
def MStreamState.isReadEvent : MStreamState → Bool
  | .readEvent _ => true
  | _ => false

/-- ClientMessageStream (client_message_stream.rs lines 40-49).  The
8 KiB buffer with buffer_pos / filled_bytes is modelled by bufSlice, the
bytes of buffer[buffer_pos .. buffer_pos + filled_bytes]; the TCP reader
is modelled by pendingReads, the chunks successive reads will return
(an exhausted list means every further read returns 0 bytes: EOF). -/
structure CMS where
  connection_id : Nat
  pendingReads : List (List Nat)
  bufSlice : List Nat
  state : MStreamState
  readComplete : Bool
  deriving Repr, DecidableEq

/-- ClientMessageStream::requires_read (lines 65-70): a read is needed
in the ReadEvent state or when the buffer holds no unconsumed bytes. -/
def requiresRead (s : CMS) : Bool :=
  s.state.isReadEvent || s.bufSlice.isEmpty

/-- ClientMessageStream::try_read (lines 72-93) combined with poll's
bookkeeping `self.read_complete = nread == 0`: the next chunk replaces
the buffer contents (buffer_pos is reset); an exhausted reader returns a
0-byte read, which marks the stream read-complete. -/
def tryRead (s : CMS) : CMS :=
  match s.pendingReads with
  | [] => { s with bufSlice := [], readComplete := true }
  | c :: rest =>
    { s with bufSlice := c, pendingReads := rest, readComplete := c.isEmpty }

/-- Intermediate result of try_parse / try_parse_event, before poll's
final translation: a yielded message, not-ready, or a parse error
(try_parse's Err(String)). -/
inductive PollInnerRes where
  | ready (m : Option MClientMessage)
  | notReady
  | parseFailed
  deriving Repr, DecidableEq

/-- Final result of one poll: futures Ready(Option) or NotReady. -/
inductive PollRes where
  | ready (m : Option MClientMessage)
  | notReady
  deriving Repr, DecidableEq

/-- The body-copy half of try_parse_event (lines 173-197): move
min(filled_bytes, remaining) buffered bytes into the in-progress event;
a completed body yields the Produce message (state Parsing), otherwise
the event is parked in state ReadEvent awaiting more reads. -/
def resumeEvent (s : CMS) (e : InProgressEventM) : PollInnerRes × CMS :=
  let n := min s.bufSlice.length (e.target - e.collected.length)
  let e2 : InProgressEventM := { e with collected := e.collected ++ s.bufSlice.take n }
  let s2 : CMS := { s with bufSlice := s.bufSlice.drop n }
  if e2.target - e2.collected.length = 0 then
    (.ready (some (.produce ⟨e2.connection_id, e2.op_id, e2.collected⟩)),
     { s2 with state := .parsing })
  else
    (.notReady, { s2 with state := .readEvent e2 })

/-- ClientMessageStream::try_parse (lines 95-144): run parse_any over
the buffered bytes; consume what a successful parse used; an ApiMessage
is yielded directly, a ProduceEvent header starts the two-phase body
read; Incomplete leaves the buffer untouched (and, notably, performs no
further read). -/
def tryParse (s : CMS) : PollInnerRes × CMS :=
  match parseAny s.bufSlice with
  | .done consumed msg =>
    let s2 : CMS := { s with bufSlice := s.bufSlice.drop consumed }
    match msg with
    | .apiMessage m => (.ready (some m), s2)
    | .produceEvent h =>
      resumeEvent s2 ⟨s2.connection_id, h.op_id, [], h.data_length⟩
  | .incomplete => (.notReady, s)
  | .perror => (.parseFailed, s)

/-- Stream::poll for ClientMessageStream (lines 206-237): read when
required (recording read_complete on a 0-byte read), then parse —
resuming an in-progress event body if in ReadEvent state — and translate
the result: NotReady with read_complete, and any parse error, both
become Ready(None), ending the stream. -/
def poll (s : CMS) : PollRes × CMS :=
  let s1 := if requiresRead s then tryRead s else s
  let (res, s2) :=
    match s1.state with
    | .readEvent e => resumeEvent { s1 with state := .parsing } e
    | _ => tryParse s1
  match res with
  | .notReady => if s2.readComplete then (.ready none, s2) else (.notReady, s2)
  | .parseFailed => (.ready none, s2)
  | .ready m => (.ready m, s2)

/-- Fresh stream for a connection over a given sequence of reads
(ClientMessageStream::new, lines 52-63). -/
def initStream (cid : Nat) (chunks : List (List Nat)) : CMS :=
  { connection_id := cid, pendingReads := chunks, bufSlice := []
    state := .reading, readComplete := false }

/-- Poll the stream up to fuel times, collecting yielded messages and
stopping at end-of-stream (Ready None); NotReady keeps polling. -/
def runPolls : Nat → CMS → List MClientMessage × CMS
  | 0, s => ([], s)
  | n + 1, s =>
    match poll s with
    | (.ready none, s2) => ([], s2)
    | (.ready (some m), s2) =>
      ((m :: (runPolls n s2).1), (runPolls n s2).2)
    | (.notReady, s2) => runPolls n s2

/-! ## Lemmas about the disk reader -/

/-- Inversion of a successful read_exact: the value has exactly the
requested length and the position advances by it. -/
lemma readExact_ok {f : RFile} {pos n : Nat} {v : List Nat} {p : Nat}
    (h : readExact f pos n = .ok v p) :
    v.length = n ∧ p = pos + n ∧ pos + n ≤ f.data.length := by
  unfold readExact at h
  by_cases h1 : f.failHit pos = true
  · simp [h1] at h
  · simp only [h1, Bool.false_eq_true, if_false] at h
    by_cases h2 : pos + n ≤ f.data.length
    · simp only [h2, if_true, RdRes.ok.injEq] at h
      obtain ⟨hv, hp⟩ := h
      subst hv hp
      refine ⟨?_, rfl, h2⟩
      simp [slice]
      omega
    · simp [h2] at h

/-- One iterator step can lose at most its yielded item from the
budget. -/
lemma next_budget (f : RFile) (st : EventIterInner) :
    iterBudget (FSEventIterNext f st).2 + (FSEventIterNext f st).1.toList.length
      ≤ iterBudget st := by
  cases st with
  | empty => simp [FSEventIterNext, iterBudget]
  | errorPending pending =>
    cases pending <;> simp [FSEventIterNext, iterBudget]
  | nonEmpty pos remaining =>
    cases remaining with
    | zero => simp [FSEventIterNext, iterBudget]
    | succ r =>
      simp only [FSEventIterNext]
      cases hn : hasNextEvent f pos with
      | err p => simp [iterBudget]
      | ok b p =>
        cases b with
        | false => simp [iterBudget]
        | true =>
          cases hr : readEventFS f pos with
          | ok e q => simp [iterBudget]
          | err q => simp [iterBudget]

/-- Running the iterator any number of steps yields at most
iterBudget items. -/
lemma runIter_length_le (f : RFile) :
    ∀ (n : Nat) (st : EventIterInner),
      (runIter f n st).1.length ≤ iterBudget st := by
  intro n
  induction n with
  | zero => intro st; simp [runIter]
  | succ k ih =>
    intro st
    have h1 := next_budget f st
    have h2 := ih (FSEventIterNext f st).2
    simp only [runIter, List.length_append]
    omega

/-- When the EOF probe at pos reports no further record (and no fault),
the iterator yields nothing from any NonEmpty state at that position. -/
lemma eof_terminal (f : RFile) (pos : Nat)
    (h : hasNextEvent f pos = .ok false pos) :
    ∀ (n r : Nat), (runIter f n (.nonEmpty pos r)).1 = [] := by
  intro n
  induction n with
  | zero => intro r; simp [runIter]
  | succ k ih =>
    intro r
    cases r with
    | zero => simp [runIter, FSEventIterNext, ih]
    | succ r' => simp [runIter, FSEventIterNext, h, ih]

/-- C8 counterexample: over a file whose reads fail from the start
(fault at position 0) and a limit of 2, the iterator yields a read-error
item and then — contrary to the claim that nothing further is yielded
after a read error — a second item. -/
theorem C8_counterexample :
    (runIter ⟨[], some 0⟩ 2 (.nonEmpty 0 2)).1
      = [Except.error (), Except.error ()] := rfl

/-- C8 (amended): from any iterator state the disk reader yields a
finite sequence of at most iterBudget items (so at most `limit` items
from a fresh NonEmpty iterator, and at most one from a pre-failed Error
iterator), and after reaching EOF on an intact file it yields nothing at
all; after a read error, however, it does not stop — subsequent next
calls re-attempt the read until the budget is exhausted. -/
theorem C8_reader_finite_and_eof_terminal (f : RFile) (st : EventIterInner)
    (n pos r : Nat) (heof : hasNextEvent f pos = .ok false pos) :
    (runIter f n st).1.length ≤ iterBudget st ∧
    (runIter f n (.nonEmpty pos r)).1 = [] :=
  ⟨runIter_length_le f n st, eof_terminal f pos heof n r⟩

/-- C8 witness: the bound and the EOF-terminal behaviour instantiated on
the empty file with no fault, three steps, budget 5. -/
theorem C8_witness :
    (runIter ⟨[], none⟩ 3 (.errorPending true)).1.length
        ≤ iterBudget (.errorPending true) ∧
    (runIter ⟨[], none⟩ 3 (.nonEmpty 0 5)).1 = [] :=
  C8_reader_finite_and_eof_terminal ⟨[], none⟩ (.errorPending true) 3 0 5
    (by decide)

/-- Bytes of a concrete well-formed on-disk record: magic, total_size 25,
counter 3, actor 1, ns_len 1, namespace "a", data_len 2, data [1,2].
Note 25 = 4 + 8 + 2 + 4 + 1 + 4 + 2: the total_size of an accepted
record counts everything after the 8-byte magic. -/
def c7recordBytes : List Nat :=
  floEvtTag ++ [0, 0, 0, 25] ++ [0, 0, 0, 0, 0, 0, 0, 3] ++ [0, 1] ++
    [0, 0, 0, 1] ++ [97] ++ [0, 0, 0, 2] ++ [1, 2]

/-- C7 counterexample: the reader accepts the concrete record whose
total_size field is 25 with ns_len 1 and data_len 2, yet the claim's
formula requires total_size = 8+4+8+2+4+ns_len+4+data_len = 33; the
8-byte magic is not counted by total_size. -/
theorem C7_counterexample :
    readHeaderFS ⟨c7recordBytes, none⟩ 0 = .ok ⟨25, 3, 1, 1⟩ 26 ∧
    readEventFS ⟨c7recordBytes, none⟩ 0 = .ok ⟨⟨1, 3⟩, [97], [1, 2]⟩ 33 ∧
    ¬ (25 : Nat) = 8 + 4 + 8 + 2 + 4 + 1 + 4 + 2 := by
  decide

/-- C7 (amended): for every record accepted by read_event whose header
arithmetic does not underflow, total_size = 4 + 8 + 2 + 4 + ns_len + 4 +
data_len — the record length excluding the 8-byte magic — equivalently
the accepted data length is total_size − 22 − ns_len, which is what
compute_data_length returns; the claim's − 30 formula is off by the
magic's 8 bytes. -/
theorem C7_total_size_excludes_magic (f : RFile) (pos : Nat)
    (evt : OwnedFloEvent) (p p26 : Nat) (header : EventHeader)
    (h : readEventFS f pos = .ok evt p)
    (hh : readHeaderFS f pos = .ok header p26)
    (hge : 22 + header.namespace_length ≤ header.total_size) :
    header.total_size = 4 + 8 + 2 + 4 + header.namespace_length + 4 + evt.data.length ∧
    evt.namespace_bytes.length = header.namespace_length ∧
    header.computeDataLength = header.total_size - 22 - header.namespace_length := by
  simp only [readEventFS, hh] at h
  cases h2 : readExact f p26 header.namespace_length with
  | err p2 => simp [h2] at h
  | ok nsBytes p2 =>
    simp only [h2] at h
    by_cases hu : utf8Valid nsBytes = true
    · simp only [hu, if_true] at h
      cases h3 : readExact f p2 4 with
      | err p3 => simp [h3] at h
      | ok dlb p3 =>
        simp only [h3] at h
        by_cases hguard : beVal dlb = header.computeDataLength
        · simp only [hguard, if_true] at h
          cases h4 : readExact f p3 header.computeDataLength with
          | err p4 => simp [h4] at h
          | ok dataB p4 =>
            simp only [h4, RdRes.ok.injEq] at h
            obtain ⟨hev, hp⟩ := h
            have hns := (readExact_ok h2).1
            have hdata := (readExact_ok h4).1
            subst hev
            refine ⟨?_, hns, ?_⟩
            · simp only [hdata]
              unfold EventHeader.computeDataLength
              omega
            · unfold EventHeader.computeDataLength
              omega
        · simp [hguard] at h
    · simp [hu] at h

/-- C7 witness: the amended size equation instantiated on the concrete
accepted record c7recordBytes. -/
theorem C7_witness :
    (25 : Nat) = 4 + 8 + 2 + 4 + 1 + 4 + 2 ∧
    ([97] : List Nat).length = 1 ∧
    EventHeader.computeDataLength ⟨25, 3, 1, 1⟩ = 25 - 22 - 1 :=
  C7_total_size_excludes_magic ⟨c7recordBytes, none⟩ 0 ⟨⟨1, 3⟩, [97], [1, 2]⟩
    33 26 ⟨25, 3, 1, 1⟩ (by decide) (by decide) (by decide)

/-! ## Lemmas about the client message stream -/

/-- A poll that returns NotReady without changing the state never
produces a message, however often the stream is polled. -/
lemma runPolls_selfloop {s : CMS} (h : poll s = (.notReady, s)) :
    ∀ n, (runPolls n s).1 = [] := by
  intro n
  induction n with
  | zero => rfl
  | succ k ih =>
    simp only [runPolls, h]
    exact ih

/-- A parse error needs at least the 8 tag bytes to be present. -/
lemma parseAny_perror_length {b : List Nat} (h : parseAny b = .perror) :
    8 ≤ b.length := by
  unfold parseAny at h
  by_cases h8 : b.length < 8
  · simp [h8] at h
  · omega

/-- Bytes of a complete FLO_AUT frame: namespace "ns", username "u",
password "p". -/
def authBytes : List Nat := floAutTag ++ [110, 115, 10] ++ [117, 10] ++ [112, 10]

/-- C6: evaluating the incremental decoder at the failing input — the
15-byte FLO_AUT frame authBytes delivered once as a single read and once
split after the 8-byte tag.  The single read yields the ClientAuth
message; the split delivery yields no message at any poll count: after
the first chunk the parse is Incomplete, and since the buffer is
non-empty requires_read stays false, so the stream never reads the
second chunk and polls NotReady forever.  The two message sequences
differ, refuting read-boundary invariance. -/
theorem C6_split_read_loses_messages :
    (runPolls 6 (initStream 1 [authBytes])).1
      = [MClientMessage.clientAuth [110, 115] [117] [112]] ∧
    ∀ n, (runPolls n (initStream 1 [authBytes.take 8, authBytes.drop 8])).1 = [] := by
  refine ⟨by decide, ?_⟩
  intro n
  cases n with
  | zero => rfl
  | succ k =>
    have hstep : poll (initStream 1 [authBytes.take 8, authBytes.drop 8])
        = (.notReady,
           ⟨1, [[110, 115, 10, 117, 10, 112, 10]], floAutTag, .reading, false⟩) := by
      decide
    have hfix :
        poll (⟨1, [[110, 115, 10, 117, 10, 112, 10]], floAutTag,
          .reading, false⟩ : CMS)
        = (.notReady,
           ⟨1, [[110, 115, 10, 117, 10, 112, 10]], floAutTag, .reading, false⟩) := by
      decide
    simp only [runPolls, hstep]
    exact runPolls_selfloop hfix k

/-- C9: when parse_any reports a parse error on the first chunk a
connection delivers, poll returns Ready(None) — the stream terminates,
which tears the connection down — without consuming the remaining input;
polling again still returns Ready(None) and no message (and no frame of
any kind) is ever yielded afterwards. -/
theorem C9_parse_error_closes_connection (cid : Nat) (bad : List Nat)
    (rest : List (List Nat)) (h : parseAny bad = .perror) :
    (poll (initStream cid (bad :: rest))).1 = .ready none ∧
    (poll (initStream cid (bad :: rest))).2.pendingReads = rest ∧
    poll (poll (initStream cid (bad :: rest))).2
      = (.ready none, (poll (initStream cid (bad :: rest))).2) ∧
    ∀ n, (runPolls n (poll (initStream cid (bad :: rest))).2).1 = [] := by
  have hlen := parseAny_perror_length h
  have hne : bad.isEmpty = false := by
    cases bad with
    | nil => simp at hlen
    | cons x xs => rfl
  have hpoll : poll (initStream cid (bad :: rest))
      = (.ready none, ⟨cid, rest, bad, .reading, false⟩) := by
    simp [poll, initStream, requiresRead, MStreamState.isReadEvent, tryRead,
      tryParse, h, hne]
  have hpoll2 : poll (⟨cid, rest, bad, .reading, false⟩ : CMS)
      = (.ready none, ⟨cid, rest, bad, .reading, false⟩) := by
    simp [poll, requiresRead, MStreamState.isReadEvent, tryParse, h, hne]
  refine ⟨by rw [hpoll], by rw [hpoll], by rw [hpoll]; exact hpoll2, ?_⟩
  intro n
  rw [hpoll]
  cases n with
  | zero => rfl
  | succ k => simp [runPolls, hpoll2]

/-- C9 witness: the parse-error behaviour instantiated on the unknown
8-byte tag FLO_XXX-newline (the §8 scenario 6 input), with one further
pending chunk that is never read. -/
theorem C9_witness :
    (poll (initStream 5 [[70, 76, 79, 95, 88, 88, 88, 10], [1, 2]])).1
      = .ready none ∧
    (runPolls 3 (poll (initStream 5 [[70, 76, 79, 95, 88, 88, 88, 10], [1, 2]])).2).1
      = [] :=
  ⟨(C9_parse_error_closes_connection 5 [70, 76, 79, 95, 88, 88, 88, 10] [[1, 2]]
      (by decide)).1,
   (C9_parse_error_closes_connection 5 [70, 76, 79, 95, 88, 88, 88, 10] [[1, 2]]
      (by decide)).2.2.2 3⟩

end Flo
